import Mathlib

/-!
Verification of the natural-language specification of the Miniproject
backend (src/server/api/app.py) against the source code.

The handlers of app.py are shallowly embedded below.  External
collaborators — Supabase auth (`supabase.auth.get_user`), the Supabase
tables, the Ollama chat endpoint (reached through the `chat` helper of
lines 27-50) and the serialized scaler/model artifacts — are parameters
of the handlers, collected in the `Env` structure; the handlers
themselves are translated line by line from the source.
-/

namespace Miniproject

/-- A chat message dictionary `{'role': r, 'content': c}`. -/
structure Message where
  role : String
  content : String
deriving DecidableEq, Repr

abbrev History := List Message

/-- Outcome of `supabase.auth.get_user(token)`: the call can raise an
exception, return a falsy value, return a truthy response whose `.user`
field is `None`, or return a response carrying a user id. -/
inductive GetUserOutcome where
  | raises
  | noneResp
  | userNone
  | ok (uid : String)
deriving DecidableEq, Repr

/-- Outcome of the `chat` helper (app.py lines 27-50).  The HTTP POST or
`response.json()` can raise (re-raised by the helper), or the parsed JSON
yields `result.message.content`.  Because the helper wraps the JSON in a
DotDict whose missing keys read as `None`, a well-formed JSON body that
lacks a `message` object or a `content` field yields `content = none`
rather than an exception. -/
inductive ChatOutcome where
  | raises
  | ok (content : Option String)
deriving DecidableEq, Repr

/-- The external collaborators, fixed for the duration of one request. -/
structure Env where
  getUser : String → GetUserOutcome
  chatCall : History → ChatOutcome
  maternalScale : List Rat → List Rat
  maternalPredict : List Rat → Int
  fetalScale : List Rat → Except String (List Rat)
  fetalPredict : List Rat → Except String Int

/-- A row of the `doctors` table: the five `data.get(...)` fields of
`create_doctor_profile`; `.get` yields `None` for absent keys. -/
structure DoctorRow where
  name : Option String
  phone : Option String
  specialty : Option String
  location : Option String
  profile_image_url : Option String
deriving DecidableEq, Repr

/-- A row of the `vitals` table as built at app.py lines 117-125.  Note
that the source stores only five of the six input features: `age` is
part of the classifier input but absent from `vital_data`. -/
structure VitalRow where
  uid : String
  systolic_bp : Rat
  diastolic_bp : Rat
  blood_glucose : Rat
  body_temp : Rat
  heart_rate : Rat
  prediction : Int
deriving DecidableEq, Repr

/-- A row of the `ctg` table (app.py lines 192-196): the user id, the 15
named features (`zip(feature_names, features.flatten())`) and the label. -/
structure CtgRow where
  uid : String
  namedFeatures : List (String × Rat)
  prediction : Int
deriving DecidableEq, Repr

/-- The store state: the four Supabase tables the handlers touch.  The
`chats` table is keyed by `UID` (the handlers upsert `{'UID', 'chat_history'}`
and read back the single latest row per user). -/
structure Store where
  doctors : List DoctorRow
  vitals : List VitalRow
  ctg : List CtgRow
  chats : List (String × History)
deriving DecidableEq, Repr

/-- `supabase.table('chats').select().eq('UID', uid).order('created_at',
desc=True).limit(1).execute()` followed by `.data` — the latest row for
the user, if any. -/
def chatsSelectLatest (s : Store) (uid : String) : Option History :=
  (s.chats.find? (fun p => p.1 == uid)).map (fun p => p.2)

/-- `supabase.table('chats').upsert({'UID': uid, 'chat_history': h})`:
replace the row keyed by the user id, or add one. -/
def chatsUpsert (s : Store) (uid : String) (h : History) : Store :=
  { s with chats := (uid, h) :: s.chats.filter (fun p => !(p.1 == uid)) }

/-- The body of each handler response, as serialized by `jsonify`/the
returned dict. -/
inductive HandlerResp where
  /-- `{'error': msg}` (with a non-200 status in `HResult.status`). -/
  | errorMsg (msg : String)
  /-- `{"prediction": name}` of `predict_maternal`. -/
  | predictionName (name : String)
  /-- `{"prediction": n, "status": s}` of `predict_fetal`. -/
  | fetalResult (pred : Int) (statusName : String)
  /-- `{"diet_plan": content}` of `pregnancy_diet` (`None` serializes as null). -/
  | dietPlan (content : Option String)
  /-- `jsonify(chat_data.data[0]['chat_history'])` of the GET handler. -/
  | chatHistoryResp (h : History)
  /-- `{"response": content}` of the POST chat handler (`None` as null). -/
  | chatResp (content : Option String)
  /-- `{"message": ..., "data": result.data}` of `create_doctor_profile`. -/
  | doctorCreated (rows : List DoctorRow)
deriving DecidableEq, Repr

/-- One observable external call made while handling a request. -/
inductive ExtCall where
  | authVerify (token : String)
  | chatUpstream (msgs : History)
  | storeSelect (table : String)
  | storeInsert (table : String)
  | storeUpsert (table : String)
deriving DecidableEq, Repr

/-- The result of one handler run: HTTP status, response body, the store
after the request, and the trace of external calls made. -/
structure HResult where
  status : Nat
  resp : HandlerResp
  store : Store
  calls : List ExtCall
deriving DecidableEq, Repr

/-- Python `header.startswith('Bearer ')`, faithfully: a prefix test on
the character sequence. -/
def strStartsWith (h p : String) : Bool :=
  p.data.isPrefixOf h.data

/-- Python `str.split(sep)` for a one-character separator, on the
character sequence: every occurrence splits, empty pieces are kept. -/
def splitChars (sep : Char) : List Char → List (List Char)
  | [] => [[]]
  | c :: cs =>
      let rest := splitChars sep cs
      if c = sep then [] :: rest
      else
        match rest with
        | [] => [[c]]
        | r :: rs => (c :: r) :: rs

/-- Python `auth_header.split(' ')[1]` (well-defined whenever the header
starts with `'Bearer '`, which guarantees an index 1). -/
def splitToken (h : String) : String :=
  String.mk ((splitChars ' ' h.data).getD 1 [])

/-- The header test shared verbatim by the five protected handlers:
`if not auth_header or not auth_header.startswith('Bearer '):`. -/
def authGateFail (authHeader : Option String) : Bool :=
  match authHeader with
  | none => true
  | some h => !(strStartsWith h "Bearer ")

/-! ## Handlers -/

/-- The body of `/create_doctor_profile` (the five `data.get(...)` keys). -/
structure DoctorBody where
  name : Option String
  phone : Option String
  specialty : Option String
  location : Option String
  profile_image_url : Option String
deriving DecidableEq, Repr

/-- `POST /create_doctor_profile` (app.py lines 66-83).  There is no
Authorization check: the handler builds `doctor_data` from the body and
upserts it into `doctors`.  The `authHeader` parameter is ignored, exactly
as the source ignores the header. -/
def create_doctor_profile (_env : Env) (store : Store)
    (_authHeader : Option String) (body : DoctorBody) : HResult :=
  let doctor_data : DoctorRow :=
    { name := body.name, phone := body.phone, specialty := body.specialty,
      location := body.location, profile_image_url := body.profile_image_url }
  { status := 200, resp := .doctorCreated [doctor_data],
    store := { store with doctors := store.doctors ++ [doctor_data] },
    calls := [.storeUpsert "doctors"] }

/-- The body of `/predict_maternal`: the six numeric fields, already
coerced by `float(...)`. -/
structure MaternalBody where
  age : Rat
  systolic_bp : Rat
  diastolic_bp : Rat
  blood_glucose : Rat
  body_temp : Rat
  heart_rate : Rat
deriving DecidableEq, Repr

/-- `risk_mapping = {0: "Normal", 1: "Suspect", 2: "Pathological"}`;
lookup raises `KeyError` (modelled as `none`) on any other id. -/
def risk_mapping (n : Int) : Option String :=
  if n = 0 then some "Normal"
  else if n = 1 then some "Suspect"
  else if n = 2 then some "Pathological"
  else none

/-- `POST /predict_maternal` (app.py lines 86-130).  The whole body sits
in one `try` whose `except` returns `{'error': str(e)}, 500`; a raising
`get_user`, a `KeyError` from `risk_mapping`, and the `AttributeError`
from `user_data.user.id` when `.user` is `None` all land there. -/
def predict_maternal (env : Env) (store : Store)
    (authHeader : Option String) (body : MaternalBody) : HResult :=
  if authGateFail authHeader then
    { status := 401, resp := .errorMsg "No valid token provided",
      store := store, calls := [] }
  else
    let token := splitToken (authHeader.getD "")
    match env.getUser token with
    | .raises =>
        { status := 500, resp := .errorMsg "Exception",
          store := store, calls := [.authVerify token] }
    | .noneResp =>
        { status := 401, resp := .errorMsg "Invalid token",
          store := store, calls := [.authVerify token] }
    | .userNone =>
        { status := 500, resp := .errorMsg "Exception",
          store := store, calls := [.authVerify token] }
    | .ok uid =>
        let features : List Rat :=
          [body.age, body.systolic_bp, body.diastolic_bp,
           body.blood_glucose, body.body_temp, body.heart_rate]
        let scaled_features := env.maternalScale features
        let prediction := env.maternalPredict scaled_features
        match risk_mapping prediction with
        | none =>
            { status := 500, resp := .errorMsg "Exception",
              store := store, calls := [.authVerify token] }
        | some risk_level =>
            let vital_data : VitalRow :=
              { uid := uid, systolic_bp := body.systolic_bp,
                diastolic_bp := body.diastolic_bp,
                blood_glucose := body.blood_glucose,
                body_temp := body.body_temp, heart_rate := body.heart_rate,
                prediction := prediction }
            { status := 200, resp := .predictionName risk_level,
              store := { store with vitals := store.vitals ++ [vital_data] },
              calls := [.authVerify token, .storeInsert "vitals"] }

/-- The body of `/predict_fetal`; `features = none` models a JSON body
that is falsy or lacks the `"features"` key. -/
structure FetalBody where
  features : Option (List Rat)
deriving DecidableEq, Repr

def expected_feature_length : Nat := 15

def feature_names : List String :=
  ["baseline_value", "accelerations", "fetal_movement", "uterine_contractions",
   "light_decelerations", "severe_decelerations", "prolonged_decelerations",
   "abnormal_short_term_variability", "mean_value_of_short_term_variability",
   "percentage_of_time_with_abnormal_long_term_variability",
   "mean_value_of_long_term_variability",
   "histogram_width", "histogram_min", "histogram_max",
   "histogram_number_of_peaks"]

/-- `health_status = {1: "Normal", 2: "Suspect", 3: "Pathological"}` read
with `.get(prediction, "Unknown")`. -/
def health_status (n : Int) : String :=
  if n = 1 then "Normal"
  else if n = 2 then "Suspect"
  else if n = 3 then "Pathological"
  else "Unknown"

/-- `POST /predict_fetal` (app.py lines 132-207).  Unlike the other
routes, `get_user` sits in its own `try/except` mapping provider
exceptions to 401, and scaling/prediction/insert each carry their own
`try/except` mapping to 500 with a specific message. -/
def predict_fetal (env : Env) (store : Store)
    (authHeader : Option String) (body : FetalBody) : HResult :=
  if authGateFail authHeader then
    { status := 401, resp := .errorMsg "No valid token provided",
      store := store, calls := [] }
  else
    let token := splitToken (authHeader.getD "")
    match env.getUser token with
    | .raises =>
        { status := 401, resp := .errorMsg "Failed to validate token",
          store := store, calls := [.authVerify token] }
    | .noneResp =>
        { status := 401, resp := .errorMsg "Invalid token",
          store := store, calls := [.authVerify token] }
    | .userNone =>
        { status := 401, resp := .errorMsg "Invalid token",
          store := store, calls := [.authVerify token] }
    | .ok uid =>
        match body.features with
        | none =>
            { status := 400, resp := .errorMsg "Missing required feature data",
              store := store, calls := [.authVerify token] }
        | some fs =>
            if fs.length ≠ expected_feature_length then
              { status := 400,
                resp := .errorMsg
                  ("Invalid feature length, expected "
                    ++ toString expected_feature_length),
                store := store, calls := [.authVerify token] }
            else
              match env.fetalScale fs with
              | .error e =>
                  { status := 500,
                    resp := .errorMsg ("Feature scaling failed: " ++ e),
                    store := store, calls := [.authVerify token] }
              | .ok scaled_features =>
                  match env.fetalPredict scaled_features with
                  | .error e =>
                      { status := 500,
                        resp := .errorMsg ("Prediction failed: " ++ e),
                        store := store, calls := [.authVerify token] }
                  | .ok prediction =>
                      let prediction_result := health_status prediction
                      let ctg_data : CtgRow :=
                        { uid := uid, namedFeatures := feature_names.zip fs,
                          prediction := prediction }
                      { status := 200,
                        resp := .fetalResult prediction prediction_result,
                        store := { store with ctg := store.ctg ++ [ctg_data] },
                        calls := [.authVerify token, .storeInsert "ctg"] }

/-- The body of `/diet_plan`. -/
structure DietBody where
  trimester : String
  weight : String
  health_conditions : String
  dietary_preference : String
deriving DecidableEq, Repr

/-- The prompt f-string of app.py line 225. -/
def dietPrompt (b : DietBody) : String :=
  "You are a professional dietician and nutritionist. You suggest excellent diet plans for pregnant women that look after their well being and growth. You will now suggest a diet plan for a "
  ++ b.trimester
  ++ " trimester pregnant woman weighing about "
  ++ b.weight
  ++ " kg, who is feeling "
  ++ b.health_conditions
  ++ " and has strict dietary preferences as follows: "
  ++ b.dietary_preference
  ++ ". Do not suggest any foods that can cause harm or go against the dietary preferences. Suggest both a vegetarian only and a non-vegetarian diet plan separately for her and just give the plan."

/-- `POST /diet_plan` (app.py lines 209-239, `pregnancy_diet`).  Line 212
evaluates `request.json` before the Authorization check: a body that fails
JSON parsing (modelled as `none`) raises inside the `try` and the
catch-all answers 500 even when the header is missing or malformed.  After
a successful chat call the handler builds `diet_data` (the record that a
write would persist) and then discards it: no table write occurs on this
route.  A raising `get_user` or chat call falls to the catch-all 500; when
`.user` is `None` the chat call still happens before `diet_data`
construction raises. -/
def pregnancy_diet (env : Env) (store : Store)
    (authHeader : Option String) (rawBody : Option DietBody) : HResult :=
  match rawBody with
  | none =>
      { status := 500, resp := .errorMsg "Exception",
        store := store, calls := [] }
  | some body =>
    if authGateFail authHeader then
      { status := 401, resp := .errorMsg "No valid token provided",
        store := store, calls := [] }
    else
      let token := splitToken (authHeader.getD "")
      match env.getUser token with
      | .raises =>
          { status := 500, resp := .errorMsg "Exception",
            store := store, calls := [.authVerify token] }
      | .noneResp =>
          { status := 401, resp := .errorMsg "Invalid token",
            store := store, calls := [.authVerify token] }
      | .userNone =>
          let msgs : History := [{ role := "user", content := dietPrompt body }]
          { status := 500, resp := .errorMsg "Exception",
            store := store, calls := [.authVerify token, .chatUpstream msgs] }
      | .ok uid =>
          let msgs : History := [{ role := "user", content := dietPrompt body }]
          match env.chatCall msgs with
          | .raises =>
              { status := 500, resp := .errorMsg "Exception",
                store := store, calls := [.authVerify token, .chatUpstream msgs] }
          | .ok content =>
              let diet_data : Option String × String := (content, uid)
              let _ := diet_data
              { status := 200, resp := .dietPlan content,
                store := store, calls := [.authVerify token, .chatUpstream msgs] }

/-- `GET /chat` (app.py lines 241-256, `chatbot_get`).  This handler has
no `try/except`: a raising `get_user`, the `AttributeError` from
`user_data.user.id`, and the `IndexError` from `chat_data.data[0]` when
the user has no rows all escape as unstructured failures, modelled as
`Except.error`. -/
def chatbot_get (env : Env) (store : Store)
    (authHeader : Option String) : Except String HResult :=
  if authGateFail authHeader then
    .ok { status := 401, resp := .errorMsg "No valid token provided",
          store := store, calls := [] }
  else
    let token := splitToken (authHeader.getD "")
    match env.getUser token with
    | .raises => .error "unhandled exception from get_user"
    | .noneResp =>
        .ok { status := 401, resp := .errorMsg "Invalid token",
              store := store, calls := [.authVerify token] }
    | .userNone => .error "unhandled AttributeError: user is None"
    | .ok uid =>
        match chatsSelectLatest store uid with
        | none => .error "unhandled IndexError: list index out of range"
        | some hist =>
            .ok { status := 200, resp := .chatHistoryResp hist,
                  store := store,
                  calls := [.authVerify token, .storeSelect "chats"] }

/-- The seed message of app.py line 280, used when the user has no stored
conversation.  Its role is `'user'` in the source. -/
def seed_history : History :=
  [{ role := "user",
     content := "You are prenova, an AI assistant that is here to help you with the user's pregnancy journey. You will only provide information that is accurate and helpful to the user. You will not provide any medical advice or diagnosis. You will also not provide any information that is not related to pregnancy. You will be polite and respectful to the user at all times. You will be rewarded for providing accurate and helpful information and penalized for providing inaccurate or unhelpful information. You will be deactivated if you provide inaccurate or unhelpful information repeatedly." }]

/-- Lines 279-282: the latest stored history, or the seed when the user
has no rows. -/
def loadedHistory (store : Store) (uid : String) : History :=
  match chatsSelectLatest store uid with
  | none => seed_history
  | some hist => hist

/-- `f"{response.message.content}"`: Python renders `None` as the string
`"None"`. -/
def assistantText (content : Option String) : String :=
  match content with
  | none => "None"
  | some s => s

/-- `POST /chat` (app.py lines 258-296, `chatbot`).  Line 261 evaluates
`request.json` before the Authorization check: a body that fails JSON
parsing (modelled as `none`) raises inside the `try` and the catch-all
answers 500 even when the header is missing or malformed.  Otherwise:
load the latest history (or the seed), append the user turn, call the
model with the running transcript, append the assistant turn
(`f"{response.message.content}"`, which is the string `"None"` when the
upstream JSON carries no assistant content), upsert the whole transcript,
return the raw content.  The catch-all `except` maps a raising `get_user`
or chat call to 500 with no store write. -/
def chatbot (env : Env) (store : Store)
    (authHeader : Option String) (rawBody : Option String) : HResult :=
  match rawBody with
  | none =>
      { status := 500, resp := .errorMsg "Exception",
        store := store, calls := [] }
  | some message =>
    if authGateFail authHeader then
      { status := 401, resp := .errorMsg "No valid token provided",
        store := store, calls := [] }
    else
      let token := splitToken (authHeader.getD "")
      match env.getUser token with
      | .raises =>
          { status := 500, resp := .errorMsg "Exception",
            store := store, calls := [.authVerify token] }
      | .noneResp =>
          { status := 401, resp := .errorMsg "Invalid token",
            store := store, calls := [.authVerify token] }
      | .userNone =>
          { status := 500, resp := .errorMsg "Exception",
            store := store, calls := [.authVerify token] }
      | .ok uid =>
          let chat_history :=
            loadedHistory store uid ++ [{ role := "user", content := message }]
          match env.chatCall chat_history with
          | .raises =>
              { status := 500, resp := .errorMsg "Exception",
                store := store,
                calls := [.authVerify token, .storeSelect "chats",
                          .chatUpstream chat_history] }
          | .ok content =>
              let chat_history' :=
                chat_history
                  ++ [{ role := "assistant", content := assistantText content }]
              { status := 200, resp := .chatResp content,
                store := chatsUpsert store uid chat_history',
                calls := [.authVerify token, .storeSelect "chats",
                          .chatUpstream chat_history,
                          .storeUpsert "chats"] }

/-- `N` sequential `POST /chat` requests with the given messages, threading
the store. -/
def runPosts (env : Env) (authHeader : Option String) :
    Store → List String → Store
  | store, [] => store
  | store, m :: ms =>
      runPosts env authHeader (chatbot env store authHeader (some m)).store ms

/-! ## Helper predicates, lemmas and concrete instances -/

/-- The messages after the seed alternate user then assistant: the list is
a sequence of (user, assistant) pairs. -/
def altUA : History → Bool
  | [] => true
  | [_] => false
  | u :: a :: rest => (u.role == "user") && (a.role == "assistant") && altUA rest

theorem altUA_append_pair {t : History} {m c : Message}
    (hm : m.role = "user") (hc : c.role = "assistant")
    (ht : altUA t = true) : altUA (t ++ [m, c]) = true := by
  induction t using altUA.induct with
  | case1 => simp [altUA, hm, hc]
  | case2 x => simp [altUA] at ht
  | case3 u a rest ih =>
      simp only [altUA, Bool.and_eq_true, beq_iff_eq] at ht
      simp only [List.cons_append, altUA, Bool.and_eq_true, beq_iff_eq]
      exact ⟨ht.1, ih ht.2⟩

theorem strStartsWith_exists {h p : String}
    (hw : strStartsWith h p = true) : ∃ t : String, h = p ++ t := by
  unfold strStartsWith at hw
  obtain ⟨l, hl⟩ := List.isPrefixOf_iff_prefix.mp hw
  refine ⟨String.mk l, String.ext ?_⟩
  rw [String.data_append]
  exact hl.symm

theorem authGateFail_of_malformed {ah : Option String}
    (hmal : ∀ t : String, ah ≠ some ("Bearer " ++ t)) :
    authGateFail ah = true := by
  match ah with
  | none => rfl
  | some h =>
      simp only [authGateFail, Bool.not_eq_eq_eq_not, Bool.not_true]
      cases hw : strStartsWith h "Bearer " with
      | false => rfl
      | true =>
          obtain ⟨t, rfl⟩ := strStartsWith_exists hw
          exact absurd rfl (hmal t)

theorem chatsSelectLatest_upsert (s : Store) (uid : String) (h : History) :
    chatsSelectLatest (chatsUpsert s uid h) uid = some h := by
  simp [chatsSelectLatest, chatsUpsert, List.find?]

theorem loadedHistory_upsert (s : Store) (uid : String) (h : History) :
    loadedHistory (chatsUpsert s uid h) uid = h := by
  simp [loadedHistory, chatsSelectLatest_upsert]

/-- One successful `POST /chat` step: with a passing gate, a valid token
and a non-raising chat call, the handler upserts the loaded history plus
one user turn and one assistant turn. -/
theorem chatbot_step (env : Env) (store : Store) (h uid msg : String)
    (hah : strStartsWith h "Bearer " = true)
    (huser : env.getUser (splitToken h) = .ok uid)
    (hchat : env.chatCall (loadedHistory store uid
      ++ [{ role := "user", content := msg }]) ≠ .raises) :
    ∃ c : Option String,
      chatbot env store (some h) (some msg) =
        { status := 200, resp := .chatResp c,
          store := chatsUpsert store uid
            (loadedHistory store uid
              ++ [{ role := "user", content := msg },
                  { role := "assistant", content := assistantText c }]),
          calls := [.authVerify (splitToken h), .storeSelect "chats",
                    .chatUpstream (loadedHistory store uid
                      ++ [{ role := "user", content := msg }]),
                    .storeUpsert "chats"] } := by
  cases hcc : env.chatCall (loadedHistory store uid
      ++ [{ role := "user", content := msg }]) with
  | raises => exact absurd hcc hchat
  | ok content =>
      refine ⟨content, ?_⟩
      simp [chatbot, authGateFail, hah, huser, hcc, List.append_assoc]

/-- Running any list of messages through `POST /chat` keeps the loaded
history of the form seed-plus-alternating-turns, adding one user/assistant
pair per message. -/
theorem runPosts_loaded (env : Env) (h uid : String)
    (hah : strStartsWith h "Bearer " = true)
    (huser : env.getUser (splitToken h) = .ok uid)
    (hchat : ∀ msgs : History, env.chatCall msgs ≠ .raises) :
    ∀ (ms : List String) (store : Store) (t : History),
      loadedHistory store uid = seed_history ++ t → altUA t = true →
      ∃ t' : History,
        loadedHistory (runPosts env (some h) store ms) uid
          = seed_history ++ (t ++ t') ∧
        t'.length = 2 * ms.length ∧ altUA (t ++ t') = true
  | [], store, t, hload, halt =>
      ⟨[], by simpa [runPosts] using hload, by simp, by simpa using halt⟩
  | m :: ms, store, t, hload, halt => by
      obtain ⟨c, hstep⟩ := chatbot_step env store h uid m hah huser (hchat _)
      have hload' :
          loadedHistory (chatbot env store (some h) (some m)).store uid
            = seed_history
              ++ (t ++ [{ role := "user", content := m },
                        { role := "assistant", content := assistantText c }]) := by
        rw [hstep]
        simp only [loadedHistory_upsert, hload, List.append_assoc]
      have halt' :
          altUA (t ++ [{ role := "user", content := m },
                       { role := "assistant", content := assistantText c }]) = true :=
        altUA_append_pair rfl rfl halt
      obtain ⟨t', h1, h2, h3⟩ :=
        runPosts_loaded env h uid hah huser hchat ms
          (chatbot env store (some h) (some m)).store _ hload' halt'
      refine ⟨[{ role := "user", content := m },
               { role := "assistant", content := assistantText c }] ++ t', ?_, ?_, ?_⟩
      · simpa [runPosts, List.append_assoc] using h1
      · simp only [List.length_append, List.length_cons, List.length_nil] at h2 ⊢
        omega
      · simpa [List.append_assoc] using h3

/-! Concrete instances used by witnesses and counterexamples. -/

def emptyStore : Store := { doctors := [], vitals := [], ctg := [], chats := [] }

/-- A healthy set of collaborators: the token `"tok"` maps to user `"u1"`,
chat replies `"ok reply"`, scaling is the identity and both classifiers
are constant. -/
def demoEnv : Env :=
  { getUser := fun t => if t = "tok" then .ok "u1" else .noneResp,
    chatCall := fun _ => .ok (some "ok reply"),
    maternalScale := id,
    maternalPredict := fun _ => 0,
    fetalScale := fun fs => .ok fs,
    fetalPredict := fun _ => .ok 7 }

/-- Collaborators whose chat endpoint answers well-formed JSON that lacks
an assistant message (`content = none`). -/
def envMalformedChat : Env := { demoEnv with chatCall := fun _ => .ok none }

/-- Collaborators whose identity provider raises on every call. -/
def envAuthRaises : Env := { demoEnv with getUser := fun _ => .raises }

def maternalBodyAge25 : MaternalBody :=
  { age := 25, systolic_bp := 120, diastolic_bp := 80,
    blood_glucose := 7, body_temp := 37, heart_rate := 75 }

def maternalBodyAge99 : MaternalBody :=
  { age := 99, systolic_bp := 120, diastolic_bp := 80,
    blood_glucose := 7, body_temp := 37, heart_rate := 75 }

def demoFetalBody : FetalBody :=
  { features := some ((List.range 15).map (fun n => (n : Rat))) }

def demoDietBody : DietBody :=
  { trimester := "second", weight := "60", health_conditions := "tired",
    dietary_preference := "vegetarian" }

/-- Like `runPosts_loaded`, but starting from a state where a row is
already persisted, so the final select is a `some` as well. -/
theorem runPosts_select (env : Env) (h uid : String)
    (hah : strStartsWith h "Bearer " = true)
    (huser : env.getUser (splitToken h) = .ok uid)
    (hchat : ∀ msgs : History, env.chatCall msgs ≠ .raises) :
    ∀ (ms : List String) (store : Store) (t : History),
      chatsSelectLatest store uid = some (seed_history ++ t) → altUA t = true →
      ∃ t' : History,
        chatsSelectLatest (runPosts env (some h) store ms) uid
          = some (seed_history ++ (t ++ t')) ∧
        t'.length = 2 * ms.length ∧ altUA (t ++ t') = true
  | [], store, t, hsel, halt =>
      ⟨[], by simpa [runPosts] using hsel, by simp, by simpa using halt⟩
  | m :: ms, store, t, hsel, halt => by
      have hload : loadedHistory store uid = seed_history ++ t := by
        simp [loadedHistory, hsel]
      obtain ⟨c, hstep⟩ := chatbot_step env store h uid m hah huser (hchat _)
      have hsel' : chatsSelectLatest (chatbot env store (some h) (some m)).store uid
          = some (seed_history
              ++ (t ++ [{ role := "user", content := m },
                        { role := "assistant", content := assistantText c }])) := by
        rw [hstep]
        simp [chatsSelectLatest_upsert, hload, List.append_assoc]
      obtain ⟨t', h1, h2, h3⟩ :=
        runPosts_select env h uid hah huser hchat ms
          (chatbot env store (some h) (some m)).store _ hsel'
          (altUA_append_pair rfl rfl halt)
      refine ⟨[{ role := "user", content := m },
               { role := "assistant", content := assistantText c }] ++ t', ?_, ?_, ?_⟩
      · simpa [runPosts, List.append_assoc] using h1
      · simp only [List.length_append, List.length_cons, List.length_nil] at h2 ⊢
        omega
      · simpa [List.append_assoc] using h3

/-- `risk_mapping` only ever produces the three maternal label names. -/
theorem risk_mapping_mem {n : Int} {name : String}
    (hm : risk_mapping n = some name) :
    name = "Normal" ∨ name = "Suspect" ∨ name = "Pathological" := by
  unfold risk_mapping at hm
  split at hm
  · exact Or.inl (Option.some.inj hm).symm
  · split at hm
    · exact Or.inr (Or.inl (Option.some.inj hm).symm)
    · split at hm
      · exact Or.inr (Or.inr (Option.some.inj hm).symm)
      · exact absurd hm (by simp)

/-! ## Claims -/

/-- C2 counterexample: the conversation freshly seeded for a user with no
stored rows (app.py line 280) consists of exactly one message, but its
role is `"user"`, not `"system"`: the seed is sent as a user message and
no system message ever occurs. -/
theorem C2_counterexample :
    loadedHistory emptyStore "u1" = seed_history ∧
    seed_history.map Message.role = ["user"] ∧
    seed_history.map Message.role ≠ ["system"] :=
  ⟨rfl, rfl, by decide⟩

/-- C2 (amended): for every user with no previously stored conversation,
the chat turn processor starts from a freshly seeded conversation of
exactly one message whose role is `"user"` (the fixed persona/safety
preamble), and after any sequence of successful POSTs the conversation is
that single seed message followed by alternating user/assistant pairs. -/
theorem C2_fresh_seed_single_user_message
    (env : Env) (store : Store) (h uid : String) (ms : List String)
    (hah : strStartsWith h "Bearer " = true)
    (huser : env.getUser (splitToken h) = .ok uid)
    (hchat : ∀ msgs : History, env.chatCall msgs ≠ .raises)
    (hfresh : chatsSelectLatest store uid = none) :
    loadedHistory store uid = seed_history ∧
    seed_history.length = 1 ∧
    seed_history.map Message.role = ["user"] ∧
    ∃ t : History,
      loadedHistory (runPosts env (some h) store ms) uid = seed_history ++ t ∧
      altUA t = true := by
  have hload : loadedHistory store uid = seed_history ++ [] := by
    simp [loadedHistory, hfresh]
  obtain ⟨t', h1, _, h3⟩ :=
    runPosts_loaded env h uid hah huser hchat ms store [] hload (by decide)
  exact ⟨by simpa using hload, rfl, by decide,
         ⟨t', by simpa using h1, by simpa using h3⟩⟩

/-- Witness for C2 at `demoEnv`, the empty store, header
`"Bearer tok"`, user `"u1"` and one posted message. -/
theorem C2_fresh_seed_single_user_message_witness :
    loadedHistory emptyStore "u1" = seed_history ∧
    seed_history.length = 1 ∧
    seed_history.map Message.role = ["user"] ∧
    ∃ t : History,
      loadedHistory (runPosts demoEnv (some "Bearer tok") emptyStore ["hi"]) "u1"
        = seed_history ++ t ∧
      altUA t = true :=
  C2_fresh_seed_single_user_message demoEnv emptyStore "Bearer tok" "u1" ["hi"]
    (by decide) (by decide) (fun _ hx => ChatOutcome.noConfusion hx) (by decide)

/-- C4: starting from no stored conversation, after a non-empty sequence
of successful POSTs to `/chat` (valid bearer header, valid token, upstream
never raises) the persisted history is exactly the seed message plus 2N
messages alternating user then assistant. -/
theorem C4_history_is_seed_plus_2N
    (env : Env) (store : Store) (h uid : String) (ms : List String)
    (hah : strStartsWith h "Bearer " = true)
    (huser : env.getUser (splitToken h) = .ok uid)
    (hchat : ∀ msgs : History, env.chatCall msgs ≠ .raises)
    (hfresh : chatsSelectLatest store uid = none)
    (hne : ms ≠ []) :
    ∃ t : History,
      chatsSelectLatest (runPosts env (some h) store ms) uid
        = some (seed_history ++ t) ∧
      (seed_history ++ t).length = 1 + 2 * ms.length ∧
      altUA t = true := by
  cases ms with
  | nil => exact absurd rfl hne
  | cons m ms' =>
      have hload : loadedHistory store uid = seed_history := by
        simp [loadedHistory, hfresh]
      obtain ⟨c, hstep⟩ := chatbot_step env store h uid m hah huser (hchat _)
      have hsel1 : chatsSelectLatest (chatbot env store (some h) (some m)).store uid
          = some (seed_history
              ++ ([{ role := "user", content := m },
                   { role := "assistant", content := assistantText c }])) := by
        rw [hstep]
        simp [chatsSelectLatest_upsert, hload]
      obtain ⟨t', h1, h2, h3⟩ :=
        runPosts_select env h uid hah huser hchat ms'
          (chatbot env store (some h) (some m)).store _ hsel1
          (by simp [altUA])
      refine ⟨[{ role := "user", content := m },
               { role := "assistant", content := assistantText c }] ++ t',
              ?_, ?_, ?_⟩
      · simpa [runPosts] using h1
      · simp only [List.length_append, List.length_cons, List.length_nil,
          seed_history] at h2 ⊢
        omega
      · simpa using h3

/-- Witness for C4 with two posted messages: the stored history has
1 + 2·2 messages. -/
theorem C4_history_is_seed_plus_2N_witness :
    ∃ t : History,
      chatsSelectLatest
          (runPosts demoEnv (some "Bearer tok") emptyStore ["hi", "again"]) "u1"
        = some (seed_history ++ t) ∧
      (seed_history ++ t).length = 1 + 2 * (["hi", "again"] : List String).length ∧
      altUA t = true :=
  C4_history_is_seed_plus_2N demoEnv emptyStore "Bearer tok" "u1" ["hi", "again"]
    (by decide) (by decide) (fun _ hx => ChatOutcome.noConfusion hx) (by decide)
    (by simp)

/-- C8 counterexample: a POST `/chat` with a missing Authorization
header whose body fails JSON parsing does not return 401: app.py line 261
evaluates `request.json` before the header check, the parse failure
raises inside the `try`, and the catch-all answers with the 500 error
envelope.  (The no-side-effects half of the claim still holds there:
store unchanged, no external calls.) -/
theorem C8_counterexample :
    (chatbot demoEnv emptyStore none none).status = 500 ∧
    (chatbot demoEnv emptyStore none none).status ≠ 401 ∧
    (chatbot demoEnv emptyStore none none).store = emptyStore ∧
    (chatbot demoEnv emptyStore none none).calls = [] := by decide

/-- C8 (amended): for every request to a protected route whose
Authorization header is missing or not of the exact form
`Bearer <token>`, the handler performs no side effects — the store is
unchanged and no store write, identity-provider call or chat-model call
occurs — and answers 401 with the `{'error': 'No valid token provided'}`
envelope, except that on POST `/chat` and `/diet_plan` the request body
is parsed before the header check, so a body that fails JSON parsing
yields the 500 error envelope instead (still with no side effects). -/
theorem C8_no_bearer_no_side_effects
    (env : Env) (store : Store) (ah : Option String)
    (hmal : ∀ t : String, ah ≠ some ("Bearer " ++ t))
    (mb : MaternalBody) (fb : FetalBody) (dtb : DietBody) (msg : String) :
    predict_maternal env store ah mb =
      { status := 401, resp := .errorMsg "No valid token provided",
        store := store, calls := [] } ∧
    predict_fetal env store ah fb =
      { status := 401, resp := .errorMsg "No valid token provided",
        store := store, calls := [] } ∧
    pregnancy_diet env store ah (some dtb) =
      { status := 401, resp := .errorMsg "No valid token provided",
        store := store, calls := [] } ∧
    chatbot env store ah (some msg) =
      { status := 401, resp := .errorMsg "No valid token provided",
        store := store, calls := [] } ∧
    chatbot_get env store ah =
      .ok { status := 401, resp := .errorMsg "No valid token provided",
            store := store, calls := [] } ∧
    pregnancy_diet env store ah none =
      { status := 500, resp := .errorMsg "Exception",
        store := store, calls := [] } ∧
    chatbot env store ah none =
      { status := 500, resp := .errorMsg "Exception",
        store := store, calls := [] } := by
  have hg := authGateFail_of_malformed hmal
  exact ⟨by simp [predict_maternal, hg], by simp [predict_fetal, hg],
         by simp [pregnancy_diet, hg], by simp [chatbot, hg],
         by simp [chatbot_get, hg], rfl, rfl⟩

/-- Witness for C8 at the concrete inputs: absent Authorization header,
with a parsed body (401, no effects) and with an unparsable body (500, no
effects). -/
theorem C8_no_bearer_no_side_effects_witness :
    chatbot demoEnv emptyStore none (some "hi") =
      { status := 401, resp := .errorMsg "No valid token provided",
        store := emptyStore, calls := [] } ∧
    chatbot demoEnv emptyStore none none =
      { status := 500, resp := .errorMsg "Exception",
        store := emptyStore, calls := [] } :=
  ⟨(C8_no_bearer_no_side_effects demoEnv emptyStore none
      (fun _ hx => Option.noConfusion hx) maternalBodyAge25 demoFetalBody
      demoDietBody "hi").2.2.2.1,
   (C8_no_bearer_no_side_effects demoEnv emptyStore none
      (fun _ hx => Option.noConfusion hx) maternalBodyAge25 demoFetalBody
      demoDietBody "hi").2.2.2.2.2.2⟩

/-- C9: a successful POST `/diet_plan` returns the generated plan, yet the
route never writes to the store: `diet_data` is built and discarded, and
in fact the store is unchanged on every path through the handler. -/
theorem C9_diet_plan_never_persisted
    (env : Env) (store : Store) (h : String) (body : DietBody)
    (uid : String) (c : Option String)
    (hah : strStartsWith h "Bearer " = true)
    (huser : env.getUser (splitToken h) = .ok uid)
    (hchat : env.chatCall [{ role := "user", content := dietPrompt body }]
      = .ok c) :
    pregnancy_diet env store (some h) (some body) =
      { status := 200, resp := .dietPlan c, store := store,
        calls := [.authVerify (splitToken h),
                  .chatUpstream [{ role := "user", content := dietPrompt body }]] } ∧
    (∀ (ah : Option String) (b : Option DietBody),
      (pregnancy_diet env store ah b).store = store) := by
  constructor
  · simp [pregnancy_diet, authGateFail, hah, huser, hchat]
  · intro ah b
    simp only [pregnancy_diet]
    split
    · rfl
    · split
      · rfl
      · split <;> first | rfl | (split <;> rfl)

/-- Witness for C9 at `demoEnv` and a concrete body. -/
theorem C9_diet_plan_never_persisted_witness :
    pregnancy_diet demoEnv emptyStore (some "Bearer tok") (some demoDietBody) =
      { status := 200, resp := .dietPlan (some "ok reply"), store := emptyStore,
        calls := [.authVerify (splitToken "Bearer tok"),
                  .chatUpstream
                    [{ role := "user", content := dietPrompt demoDietBody }]] } :=
  (C9_diet_plan_never_persisted demoEnv emptyStore "Bearer tok" demoDietBody
    "u1" (some "ok reply") (by decide) (by decide) rfl).1

/-- C10: `/create_doctor_profile` ignores the Authorization header: any
two requests with the same body and arbitrary (or absent) headers produce
the identical upsert and response, the status is 200 (never 401), and the
doctors table gains the row built from the body without any
authentication check. -/
theorem C10_create_doctor_profile_ignores_auth
    (env : Env) (store : Store) (body : DoctorBody) (ah1 ah2 : Option String) :
    create_doctor_profile env store ah1 body
      = create_doctor_profile env store ah2 body ∧
    (create_doctor_profile env store ah1 body).status = 200 ∧
    (create_doctor_profile env store ah1 body).store.doctors =
      store.doctors
        ++ [{ name := body.name, phone := body.phone,
              specialty := body.specialty, location := body.location,
              profile_image_url := body.profile_image_url }] :=
  ⟨rfl, rfl, rfl⟩

/-- Collaborators whose chat endpoint raises on every call (transport
error or unparsable body). -/
def envChatRaises : Env := { demoEnv with chatCall := fun _ => .raises }

/-- C1 counterexample: an authenticated POST `/chat` whose upstream
answers well-formed JSON lacking an assistant message (`content = none`)
is not treated as a failure: the handler returns 200 (no error envelope)
and the persisted conversation changes — the user turn and an assistant
turn with content `"None"` are committed. -/
theorem C1_counterexample :
    (chatbot envMalformedChat emptyStore (some "Bearer tok") (some "hi")).status = 200 ∧
    (chatbot envMalformedChat emptyStore (some "Bearer tok") (some "hi")).store
      ≠ emptyStore ∧
    chatsSelectLatest
        (chatbot envMalformedChat emptyStore (some "Bearer tok") (some "hi")).store "u1"
      = some (seed_history
          ++ [{ role := "user", content := "hi" },
              { role := "assistant", content := "None" }]) :=
  ⟨rfl, by decide, rfl⟩

/-- C1 (amended): for an authenticated POST `/chat`, if the upstream chat
call raises (transport error or unparsable body) the handler returns the
500 error envelope and the persisted conversation is unchanged; a
well-formed JSON reply lacking an assistant message is instead treated as
success: the handler returns 200 with a null response and persists the
user turn together with an assistant turn whose content is the literal
string `"None"` — so in neither case is a user-only turn committed alone,
but only the raising case is an error with unchanged state. -/
theorem C1_upstream_failure_leaves_store_unchanged
    (env envM : Env) (store : Store) (h uid msg : String)
    (hah : strStartsWith h "Bearer " = true)
    (huser : env.getUser (splitToken h) = .ok uid)
    (hraise : ∀ msgs : History, env.chatCall msgs = .raises)
    (huserM : envM.getUser (splitToken h) = .ok uid)
    (hmal : ∀ msgs : History, envM.chatCall msgs = .ok none) :
    chatbot env store (some h) (some msg) =
      { status := 500, resp := .errorMsg "Exception", store := store,
        calls := [.authVerify (splitToken h), .storeSelect "chats",
                  .chatUpstream (loadedHistory store uid
                    ++ [{ role := "user", content := msg }])] } ∧
    chatbot envM store (some h) (some msg) =
      { status := 200, resp := .chatResp none,
        store := chatsUpsert store uid
          (loadedHistory store uid
            ++ [{ role := "user", content := msg },
                { role := "assistant", content := "None" }]),
        calls := [.authVerify (splitToken h), .storeSelect "chats",
                  .chatUpstream (loadedHistory store uid
                    ++ [{ role := "user", content := msg }]),
                  .storeUpsert "chats"] } := by
  constructor
  · simp [chatbot, authGateFail, hah, huser, hraise]
  · simp [chatbot, authGateFail, hah, huserM, hmal, assistantText,
      List.append_assoc]

/-- Witness for C1: a raising upstream gives 500 and an unchanged store;
an assistant-less JSON reply gives 200 and a persisted `"None"` turn. -/
theorem C1_upstream_failure_leaves_store_unchanged_witness :
    chatbot envChatRaises emptyStore (some "Bearer tok") (some "hi") =
      { status := 500, resp := .errorMsg "Exception", store := emptyStore,
        calls := [.authVerify (splitToken "Bearer tok"), .storeSelect "chats",
                  .chatUpstream (loadedHistory emptyStore "u1"
                    ++ [{ role := "user", content := "hi" }])] } ∧
    chatbot envMalformedChat emptyStore (some "Bearer tok") (some "hi") =
      { status := 200, resp := .chatResp none,
        store := chatsUpsert emptyStore "u1"
          (loadedHistory emptyStore "u1"
            ++ [{ role := "user", content := "hi" },
                { role := "assistant", content := "None" }]),
        calls := [.authVerify (splitToken "Bearer tok"), .storeSelect "chats",
                  .chatUpstream (loadedHistory emptyStore "u1"
                    ++ [{ role := "user", content := "hi" }]),
                  .storeUpsert "chats"] } :=
  C1_upstream_failure_leaves_store_unchanged envChatRaises envMalformedChat
    emptyStore "Bearer tok" "u1" "hi" (by decide) (by decide) (fun _ => rfl)
    (by decide) (fun _ => rfl)

/-- C3 counterexample: a GET `/chat` with a valid token for a user who has
no stored conversation rows does not return a structured 200 response: it
escapes with an uncaught IndexError (an unstructured failure), because
`chatbot_get` has no `try/except` and indexes `chat_data.data[0]`. -/
theorem C3_counterexample :
    chatbot_get demoEnv emptyStore (some "Bearer tok")
      = .error "unhandled IndexError: list index out of range" := rfl

/-- C3 (amended): loading a conversation can fail the request: a GET
`/chat` with a valid token for a user with no stored rows raises an
uncaught IndexError (no seeding happens on GET and `chatbot_get` has no
error envelope); only when a stored conversation exists does the handler
return a structured 200 response carrying that history. -/
theorem C3_chatbot_get_unstructured_when_no_rows
    (env : Env) (store : Store) (h uid : String)
    (hah : strStartsWith h "Bearer " = true)
    (huser : env.getUser (splitToken h) = .ok uid) :
    (chatsSelectLatest store uid = none →
      chatbot_get env store (some h)
        = .error "unhandled IndexError: list index out of range") ∧
    (∀ hist : History, chatsSelectLatest store uid = some hist →
      chatbot_get env store (some h)
        = .ok { status := 200, resp := .chatHistoryResp hist, store := store,
                calls := [.authVerify (splitToken h), .storeSelect "chats"] }) := by
  constructor
  · intro hnone
    simp [chatbot_get, authGateFail, hah, huser, hnone]
  · intro hist hsome
    simp [chatbot_get, authGateFail, hah, huser, hsome]

/-- Witness for C3 at `demoEnv`: empty store gives the unstructured
failure, a seeded store gives 200 with the stored history. -/
theorem C3_chatbot_get_unstructured_when_no_rows_witness :
    chatbot_get demoEnv emptyStore (some "Bearer tok")
      = .error "unhandled IndexError: list index out of range" ∧
    chatbot_get demoEnv (chatsUpsert emptyStore "u1" seed_history)
        (some "Bearer tok")
      = .ok { status := 200, resp := .chatHistoryResp seed_history,
              store := chatsUpsert emptyStore "u1" seed_history,
              calls := [.authVerify (splitToken "Bearer tok"),
                        .storeSelect "chats"] } :=
  ⟨(C3_chatbot_get_unstructured_when_no_rows demoEnv emptyStore "Bearer tok"
      "u1" (by decide) (by decide)).1 rfl,
   (C3_chatbot_get_unstructured_when_no_rows demoEnv
      (chatsUpsert emptyStore "u1" seed_history) "Bearer tok"
      "u1" (by decide) (by decide)).2 seed_history
      (chatsSelectLatest_upsert emptyStore "u1" seed_history)⟩

/-- C5 counterexample: two authenticated `/predict_maternal` requests
that differ only in the `age` input feature both succeed and persist
identical stores: the persisted record does not combine all of the input
features — `age` is part of the classifier input (app.py line 103) but
absent from `vital_data` (lines 117-125). -/
theorem C5_counterexample :
    maternalBodyAge25.age ≠ maternalBodyAge99.age ∧
    (predict_maternal demoEnv emptyStore (some "Bearer tok")
        maternalBodyAge25).status = 200 ∧
    (predict_maternal demoEnv emptyStore (some "Bearer tok")
        maternalBodyAge99).status = 200 ∧
    (predict_maternal demoEnv emptyStore (some "Bearer tok")
        maternalBodyAge25).store
      = (predict_maternal demoEnv emptyStore (some "Bearer tok")
        maternalBodyAge99).store := by decide

/-- C5 (amended): for every valid 6-element maternal feature vector
submitted with a valid token, when the classifier label id is in the
domain of `{0: Normal, 1: Suspect, 2: Pathological}` the response carries
the mapped name (one of Normal/Suspect/Pathological) and exactly one
vitals record is inserted (not upserted) combining the five non-age input
features, the owning user id, and the same numeric label; the `age`
feature is not part of the persisted record. -/
theorem C5_maternal_success_insert_without_age
    (env : Env) (store : Store) (h : String) (body : MaternalBody)
    (uid name : String)
    (hah : strStartsWith h "Bearer " = true)
    (huser : env.getUser (splitToken h) = .ok uid)
    (hmap : risk_mapping (env.maternalPredict (env.maternalScale
      [body.age, body.systolic_bp, body.diastolic_bp, body.blood_glucose,
       body.body_temp, body.heart_rate])) = some name) :
    (name = "Normal" ∨ name = "Suspect" ∨ name = "Pathological") ∧
    predict_maternal env store (some h) body =
      { status := 200, resp := .predictionName name,
        store := { store with vitals := store.vitals ++
          [{ uid := uid, systolic_bp := body.systolic_bp,
             diastolic_bp := body.diastolic_bp,
             blood_glucose := body.blood_glucose,
             body_temp := body.body_temp, heart_rate := body.heart_rate,
             prediction := env.maternalPredict (env.maternalScale
               [body.age, body.systolic_bp, body.diastolic_bp,
                body.blood_glucose, body.body_temp, body.heart_rate]) }] },
        calls := [.authVerify (splitToken h), .storeInsert "vitals"] } := by
  refine ⟨risk_mapping_mem hmap, ?_⟩
  simp [predict_maternal, authGateFail, hah, huser, hmap]

/-- Witness for C5 at `demoEnv` (constant label 0). -/
theorem C5_maternal_success_insert_without_age_witness :
    ("Normal" = "Normal" ∨ "Normal" = "Suspect" ∨ "Normal" = "Pathological") ∧
    predict_maternal demoEnv emptyStore (some "Bearer tok") maternalBodyAge25 =
      { status := 200, resp := .predictionName "Normal",
        store := { emptyStore with vitals :=
          emptyStore.vitals ++
            [{ uid := "u1", systolic_bp := maternalBodyAge25.systolic_bp,
               diastolic_bp := maternalBodyAge25.diastolic_bp,
               blood_glucose := maternalBodyAge25.blood_glucose,
               body_temp := maternalBodyAge25.body_temp,
               heart_rate := maternalBodyAge25.heart_rate,
               prediction := demoEnv.maternalPredict (demoEnv.maternalScale
                 [maternalBodyAge25.age, maternalBodyAge25.systolic_bp,
                  maternalBodyAge25.diastolic_bp,
                  maternalBodyAge25.blood_glucose, maternalBodyAge25.body_temp,
                  maternalBodyAge25.heart_rate]) }] },
        calls := [.authVerify (splitToken "Bearer tok"),
                  .storeInsert "vitals"] } :=
  C5_maternal_success_insert_without_age demoEnv emptyStore "Bearer tok"
    maternalBodyAge25 "u1" "Normal" (by decide) (by decide) (by decide)

/-- C6: for an authenticated `/predict_fetal` request whose features list
has length ≠ 15, the handler answers 400 with an error message reporting
the expected count and performs no store write; and a label id outside
{1, 2, 3} returned by the fetal classifier maps to status `"Unknown"`
instead of raising. -/
theorem C6_fetal_arity_400_and_unknown_label
    (env : Env) (store : Store) (h uid : String)
    (hah : strStartsWith h "Bearer " = true)
    (huser : env.getUser (splitToken h) = .ok uid) :
    (∀ fs : List Rat, fs.length ≠ 15 →
      predict_fetal env store (some h) { features := some fs } =
        { status := 400,
          resp := .errorMsg "Invalid feature length, expected 15",
          store := store, calls := [.authVerify (splitToken h)] }) ∧
    (∀ (fs scaled : List Rat) (pred : Int), fs.length = 15 →
      env.fetalScale fs = .ok scaled → env.fetalPredict scaled = .ok pred →
      pred ≠ 1 → pred ≠ 2 → pred ≠ 3 →
      (predict_fetal env store (some h) { features := some fs }).resp
        = .fetalResult pred "Unknown") := by
  constructor
  · intro fs hlen
    simp [predict_fetal, authGateFail, hah, huser, expected_feature_length,
      hlen]
    decide
  · intro fs scaled pred hlen hscale hpred h1 h2 h3
    simp [predict_fetal, authGateFail, hah, huser, expected_feature_length,
      hlen, hscale, hpred, health_status, h1, h2, h3]

/-- Witness for C6: a 14-element vector gives the 400 arity error with no
store write; label id 7 maps to `"Unknown"`. -/
theorem C6_fetal_arity_400_and_unknown_label_witness :
    predict_fetal demoEnv emptyStore (some "Bearer tok")
        { features := some ((List.range 14).map (fun n => (n : Rat))) } =
      { status := 400,
        resp := .errorMsg "Invalid feature length, expected 15",
        store := emptyStore,
        calls := [.authVerify (splitToken "Bearer tok")] } ∧
    (predict_fetal demoEnv emptyStore (some "Bearer tok") demoFetalBody).resp
      = .fetalResult 7 "Unknown" :=
  ⟨(C6_fetal_arity_400_and_unknown_label demoEnv emptyStore "Bearer tok" "u1"
      (by decide) (by decide)).1 _ (by decide),
   (C6_fetal_arity_400_and_unknown_label demoEnv emptyStore "Bearer tok" "u1"
      (by decide) (by decide)).2
      ((List.range 15).map (fun n => (n : Rat)))
      ((List.range 15).map (fun n => (n : Rat))) 7
      (by decide) rfl rfl (by decide) (by decide) (by decide)⟩

/-- C7 counterexample: with an identity provider that raises during token
validation, `/predict_maternal` with a well-formed bearer header answers
500, not 401: the exception falls into the route's catch-all. -/
theorem C7_counterexample :
    (predict_maternal envAuthRaises emptyStore (some "Bearer tok")
        maternalBodyAge25).status = 500 ∧
    (predict_maternal envAuthRaises emptyStore (some "Bearer tok")
        maternalBodyAge25).status ≠ 401 := by decide

/-- C7 (amended): on every protected route a negative/empty result from
the identity provider yields 401; a provider exception yields 401 only on
`/predict_fetal` (whose `get_user` sits in its own `try/except`), while
`/predict_maternal`, `/diet_plan` and POST `/chat` map it to 500 through
their catch-alls and GET `/chat` lets it escape as an unstructured
failure. -/
theorem C7_provider_error_mapping
    (env : Env) (store : Store) (h : String)
    (mb : MaternalBody) (fb : FetalBody) (dtb : DietBody) (msg : String)
    (hah : strStartsWith h "Bearer " = true) :
    (env.getUser (splitToken h) = .noneResp →
      (predict_maternal env store (some h) mb).status = 401 ∧
      (predict_fetal env store (some h) fb).status = 401 ∧
      (pregnancy_diet env store (some h) (some dtb)).status = 401 ∧
      (chatbot env store (some h) (some msg)).status = 401 ∧
      chatbot_get env store (some h)
        = .ok { status := 401, resp := .errorMsg "Invalid token",
                store := store, calls := [.authVerify (splitToken h)] }) ∧
    (env.getUser (splitToken h) = .raises →
      (predict_fetal env store (some h) fb).status = 401 ∧
      (predict_maternal env store (some h) mb).status = 500 ∧
      (pregnancy_diet env store (some h) (some dtb)).status = 500 ∧
      (chatbot env store (some h) (some msg)).status = 500 ∧
      chatbot_get env store (some h)
        = .error "unhandled exception from get_user") := by
  constructor
  · intro hu
    exact ⟨by simp [predict_maternal, authGateFail, hah, hu],
           by simp [predict_fetal, authGateFail, hah, hu],
           by simp [pregnancy_diet, authGateFail, hah, hu],
           by simp [chatbot, authGateFail, hah, hu],
           by simp [chatbot_get, authGateFail, hah, hu]⟩
  · intro hu
    exact ⟨by simp [predict_fetal, authGateFail, hah, hu],
           by simp [predict_maternal, authGateFail, hah, hu],
           by simp [pregnancy_diet, authGateFail, hah, hu],
           by simp [chatbot, authGateFail, hah, hu],
           by simp [chatbot_get, authGateFail, hah, hu]⟩

/-- Witness for C7 with the always-raising provider. -/
theorem C7_provider_error_mapping_witness :
    (predict_fetal envAuthRaises emptyStore (some "Bearer tok")
        demoFetalBody).status = 401 ∧
    (predict_maternal envAuthRaises emptyStore (some "Bearer tok")
        maternalBodyAge25).status = 500 ∧
    (pregnancy_diet envAuthRaises emptyStore (some "Bearer tok")
        (some demoDietBody)).status = 500 ∧
    (chatbot envAuthRaises emptyStore (some "Bearer tok") (some "hi")).status = 500 ∧
    chatbot_get envAuthRaises emptyStore (some "Bearer tok")
      = .error "unhandled exception from get_user" :=
  (C7_provider_error_mapping envAuthRaises emptyStore "Bearer tok"
    maternalBodyAge25 demoFetalBody demoDietBody "hi" (by decide)).2 rfl

end Miniproject
